import Mathlib

/-!
Verification development for the openfabric_app creative pipeline.

Shallow embedding of:
- `app/core/memory.py` (`MemoryHandler`): dual-tier key/value store,
- `app/core/llm.py` (`LLMHandler`): fail-open prompt expansion and
  substring-based hint extraction,
- `app/core/pipeline.py` (`Pipeline`): the 4-stage orchestrator and the
  temp-artifact writers,
- the handler wiring in `app/main.py` (`config`), where a missing model
  file leaves the LLM handler as `None`.

Python dynamic values are modelled by the inductive `PyVal`; Python dicts
by insertion-ordered association lists; `datetime.now().isoformat()` by a
logical clock (a `Nat` counter incremented at each timestamped write —
ISO timestamp strings from a monotone clock compare lexicographically in
chronological order); exceptions by `Except`; external collaborators
(the llama model, the Openfabric stub, `base64.b64decode`, the OS tempfile
allocator, the sqlitedict backing store) by oracle parameters.
-/

namespace OpenfabricApp

/-- A Python value as stored in the memory tiers: `None`, strings,
numbers, and string-keyed dicts (modelled as insertion-ordered
association lists). -/
inductive PyVal where
  | none : PyVal
  | str : String → PyVal
  | nat : Nat → PyVal
  | dict : List (String × PyVal) → PyVal

/-- Python dict update `d[k] = v`: overwrite in place if the key exists
(keeping the original insertion position), else append. -/
def upsert (k : String) (v : β) : List (String × β) → List (String × β)
  | [] => [(k, v)]
  | (k', v') :: rest => if k' = k then (k, v) :: rest else (k', v') :: upsert k v rest

/-- Python dict lookup `d.get(k)` on an association list. -/
def lookupA (k : String) : List (String × β) → Option β
  | [] => Option.none
  | (k', v) :: rest => if k' = k then some v else lookupA k rest

theorem lookupA_upsert_self (k : String) (v : β) (l : List (String × β)) :
    lookupA k (upsert k v l) = some v := by
  induction l with
  | nil => simp [upsert, lookupA]
  | cons hd tl ih =>
    obtain ⟨k', v'⟩ := hd
    by_cases h : k' = k <;> simp [upsert, lookupA, h, ih]

theorem lookupA_upsert_ne (k k' : String) (v : β) (l : List (String × β))
    (h : k' ≠ k) : lookupA k' (upsert k v l) = lookupA k' l := by
  induction l with
  | nil => simp [upsert, lookupA, Ne.symm h]
  | cons hd tl ih =>
    obtain ⟨k0, v0⟩ := hd
    simp only [upsert]
    by_cases h0 : k0 = k
    · subst h0
      simp [lookupA, Ne.symm h]
    · simp [lookupA, h0, ih]

/-- One entry of either memory tier: the code stores the wrapper dict
`\x7b data, timestamp \x7d` at each key (`memory.py`, `save_session` /
`save_persistent`). -/
structure SessionEntry where
  data : PyVal
  timestamp : Nat

/-- `MemoryHandler` state (`memory.py`): `session_memory` is the in-process
dict, `db` the sqlitedict-backed persistent tier, `clock` the logical time
of the next `datetime.now()` call. -/
structure MemoryHandler where
  session_memory : List (String × SessionEntry)
  db : List (String × SessionEntry)
  clock : Nat

/-- `MemoryHandler.save_session`: wraps the data with a timestamp and
writes through to the session tier; never fails. -/
def save_session (k : String) (v : PyVal) (m : MemoryHandler) : MemoryHandler :=
  { m with
    session_memory := upsert k ⟨v, m.clock⟩ m.session_memory
    clock := m.clock + 1 }

/-- `MemoryHandler.get_session`: `session_memory.get(key, \x7b\x7d).get('data')` —
returns the stored data, or Python `None` for an absent key. -/
def get_session (m : MemoryHandler) (k : String) : PyVal :=
  match lookupA k m.session_memory with
  | some e => e.data
  | Option.none => PyVal.none

/-- `MemoryHandler.save_persistent`: timestamped write to the durable
tier, committed before returning. -/
def save_persistent (k : String) (v : PyVal) (m : MemoryHandler) : MemoryHandler :=
  { m with
    db := upsert k ⟨v, m.clock⟩ m.db
    clock := m.clock + 1 }

/-- `MemoryHandler.get_persistent`: `entry.get('data') if entry else None`. -/
def get_persistent (m : MemoryHandler) (k : String) : PyVal :=
  match lookupA k m.db with
  | some e => e.data
  | Option.none => PyVal.none

/-- `MemoryHandler.clear_session`: empties the session tier. -/
def clear_session (m : MemoryHandler) : MemoryHandler :=
  { m with session_memory := [] }

/-- `MemoryHandler.list_recent_sessions`: sort the session items by
timestamp descending (Python `sorted(..., reverse=True)` is a stable
sort, as is `List.mergeSort`) and keep the first `n`. -/
def list_recent_sessions (n : Nat) (m : MemoryHandler) : List (String × SessionEntry) :=
  (m.session_memory.mergeSort (fun a b => b.2.timestamp ≤ a.2.timestamp)).take n

/-- Claim C8: for every key `k` and value `v`, immediately after
`save_persistent k v` the lookup `get_persistent k` returns a value equal
to `v` (round-trip through the durable tier). -/
theorem persistent_round_trip (m : MemoryHandler) (k : String) (v : PyVal) :
    get_persistent (save_persistent k v m) k = v := by
  simp [get_persistent, save_persistent, lookupA_upsert_self]

/-- Claim C10: session-tier round-trip. Immediately after `save_session k v`
the lookup `get_session k` returns `v`; an intervening `save_session` to a
different key does not disturb it; a key never written reads as Python
`None`; after `clear_session` every key reads as `None`. (When `v` itself
is `None` the read is indistinguishable from an absent key, as both are
`PyVal.none`.) -/
theorem session_round_trip (m : MemoryHandler) (k : String) (v : PyVal) :
    get_session (save_session k v m) k = v ∧
    (∀ k' v', k' ≠ k →
      get_session (save_session k' v' (save_session k v m)) k = v) ∧
    (lookupA k m.session_memory = Option.none → get_session m k = PyVal.none) ∧
    get_session (clear_session m) k = PyVal.none := by
  refine ⟨?_, ?_, ?_, ?_⟩
  · simp [get_session, save_session, lookupA_upsert_self]
  · intro k' v' hne
    simp [get_session, save_session, lookupA_upsert_ne k' k _ _ (Ne.symm hne),
      lookupA_upsert_self]
  · intro h
    simp [get_session, h]
  · simp [get_session, clear_session, lookupA]

/-- Witness for C10 at concrete inputs. -/
theorem session_round_trip_witness :
    get_session (save_session "a" (PyVal.str "x") ⟨[], [], 0⟩) "a" = PyVal.str "x" ∧
    get_session ⟨[], [], 0⟩ "b" = PyVal.none := by
  have h := session_round_trip ⟨[], [], 0⟩ "a" (PyVal.str "x")
  have h2 := session_round_trip ⟨[], [], 0⟩ "b" (PyVal.str "x")
  exact ⟨h.1, h2.2.2.1 rfl⟩

/-- Claim C7: for every session-tier state and every `n`,
`list_recent_sessions n` returns at most `n` entries, the returned
sequence is ordered by non-increasing timestamp, and it consists of the
`n` most recently written entries: it is the `n`-element initial segment
of a descending-sorted permutation of the whole session tier. -/
theorem list_recent_sessions_spec (m : MemoryHandler) (n : Nat) :
    (list_recent_sessions n m).length ≤ n ∧
    List.Pairwise (fun a b => b.2.timestamp ≤ a.2.timestamp)
      (list_recent_sessions n m) ∧
    ∃ l, l.Perm m.session_memory ∧
      List.Pairwise (fun a b => b.2.timestamp ≤ a.2.timestamp) l ∧
      list_recent_sessions n m = l.take n := by
  have htrans : ∀ a b c : String × SessionEntry,
      (decide (b.2.timestamp ≤ a.2.timestamp)) = true →
      (decide (c.2.timestamp ≤ b.2.timestamp)) = true →
      (decide (c.2.timestamp ≤ a.2.timestamp)) = true := by
    intro a b c h1 h2
    simp only [decide_eq_true_eq] at h1 h2 ⊢
    omega
  have htotal : ∀ a b : String × SessionEntry,
      ((decide (b.2.timestamp ≤ a.2.timestamp)) ||
        (decide (a.2.timestamp ≤ b.2.timestamp))) = true := by
    intro a b
    simp only [Bool.or_eq_true, decide_eq_true_eq]
    omega
  have hsorted := List.sorted_mergeSort htrans htotal m.session_memory
  have hsorted' : List.Pairwise (fun a b => b.2.timestamp ≤ a.2.timestamp)
      (m.session_memory.mergeSort
        (fun a b => decide (b.2.timestamp ≤ a.2.timestamp))) := by
    refine hsorted.imp ?_
    intro a b h
    simpa using h
  refine ⟨?_, ?_, ?_⟩
  · exact List.length_take_le n _
  · exact hsorted'.sublist (List.take_sublist n _)
  · exact ⟨_, List.mergeSort_perm m.session_memory _, hsorted', rfl⟩

/- ### LLM handler (`app/core/llm.py`) -/

/-- `lighting` style hints produced by `LLMHandler._extract_lighting`. -/
structure Lighting where
  primary_light : String
  mood : String

/-- `composition` style hints produced by `LLMHandler._extract_composition`. -/
structure Composition where
  perspective : String
  focus : String

/-- The `style_hints` dict built by a successful `expand_prompt`. -/
structure StyleHints where
  lighting : Lighting
  composition : Composition

/-- The dict returned by `LLMHandler.expand_prompt`: always exactly the
three keys `expanded_prompt`, `style_hints`, `technical_params`.
`style_hints = Option.none` models the empty dict `\x7b\x7d` of the
fail-open branch. -/
structure PromptExpansion where
  expanded_prompt : String
  style_hints : Option StyleHints
  technical_params : String

/-- `startsWith hay pat`: `pat` is an initial segment of `hay`. -/
def startsWith : List Char → List Char → Bool
  | _, [] => true
  | [], _ :: _ => false
  | h :: t, p :: ps => h = p && startsWith t ps

/-- `hasSub pat hay`: `pat` occurs as a contiguous run inside `hay`
(Python's `pat in hay` on strings). -/
def hasSub (pat : List Char) : List Char → Bool
  | [] => pat.isEmpty
  | c :: t => startsWith (c :: t) pat || hasSub pat t

/-- Case-insensitive substring check `pat in text.lower()` (the patterns
in the source are already lowercase). -/
def containsLower (text pat : String) : Bool :=
  hasSub pat.toList text.toLower.toList

/-- `LLMHandler._extract_lighting`. -/
def extract_lighting (text : String) : Lighting :=
  { primary_light := if containsLower text "sunlight" then "natural" else "artificial"
    mood := if containsLower text "bright" || containsLower text "sunny" ||
        containsLower text "daylight" then "bright" else "dark" }

/-- `LLMHandler._extract_composition`. -/
def extract_composition (text : String) : Composition :=
  { perspective := if containsLower text "panorama" || containsLower text "wide" ||
        containsLower text "vast" then "wide" else "close"
    focus := if containsLower text "foreground" then "foreground" else "background" }

/-- Outcome of one `self.llm(...)` generation call: the returned
`choices[0].text`, or a raised exception with its message. -/
inductive LLMCall where
  | ok (text : String)
  | err (msg : String)

/-- Oracle for the two sequential generation calls made by
`expand_prompt` (the local llama model is an external collaborator). -/
structure LLMModel where
  creative : LLMCall
  technical : LLMCall

/-- The fail-open result of `expand_prompt`'s except-branch. -/
def failOpen (prompt : String) : PromptExpansion :=
  { expanded_prompt := prompt, style_hints := Option.none, technical_params := "" }

/-- `LLMHandler.expand_prompt`: two generation calls inside one
try/except; any raise from either call yields the fail-open default.
On success, hints are extracted from the raw creative text and the
returned texts are stripped. -/
def expand_prompt (llm : LLMModel) (prompt : String) : PromptExpansion :=
  match llm.creative with
  | .err _ => failOpen prompt
  | .ok t1 =>
    match llm.technical with
    | .err _ => failOpen prompt
    | .ok t2 =>
      { expanded_prompt := t1.trim
        style_hints := some { lighting := extract_lighting t1
                              composition := extract_composition t1 }
        technical_params := t2.trim }

/-- Claim C2: `expand_prompt` is a total function (the embedding absorbs
every raise of the model calls, mirroring the blanket try/except), it
always returns a record with exactly the three fields `expanded_prompt`,
`style_hints`, `technical_params`, and whenever either internal model
call fails it returns exactly
`\x7b expanded_prompt := prompt, style_hints := \x7b\x7d, technical_params := "" \x7d`. -/
theorem expand_prompt_fail_open (llm : LLMModel) (prompt : String) :
    (∃ e s t, expand_prompt llm prompt = ⟨e, s, t⟩) ∧
    ((∃ m, llm.creative = LLMCall.err m) ∨ (∃ m, llm.technical = LLMCall.err m) →
      expand_prompt llm prompt =
        { expanded_prompt := prompt
          style_hints := Option.none
          technical_params := "" }) := by
  constructor
  · exact ⟨_, _, _, rfl⟩
  · rintro (⟨m, hm⟩ | ⟨m, hm⟩) <;>
      cases hc : llm.creative <;> cases ht : llm.technical <;>
      simp_all [expand_prompt, failOpen]

/-- Witness for C2: with the first model call failing, the fail-open
default comes back. -/
theorem expand_prompt_fail_open_witness :
    expand_prompt ⟨LLMCall.err "model not loaded", LLMCall.ok "t"⟩ "a cat" =
      { expanded_prompt := "a cat"
        style_hints := Option.none
        technical_params := "" } :=
  (expand_prompt_fail_open ⟨LLMCall.err "model not loaded", LLMCall.ok "t"⟩ "a cat").2
    (Or.inl ⟨"model not loaded", rfl⟩)

/-- Claim C9: the hint classifiers are deterministic total functions over
the expansion text (they are plain Lean functions), and each field is
characterised exactly by the case-insensitive substring checks of the
source: `primary_light = "natural"` iff the text contains `"sunlight"`,
`mood = "bright"` iff it contains one of `"bright"`, `"sunny"`,
`"daylight"`; `perspective = "wide"` iff it contains one of `"panorama"`,
`"wide"`, `"vast"`; `focus = "foreground"` iff it contains
`"foreground"`; with the stated alternative value otherwise. -/
theorem extract_hints_spec (text : String) :
    ((extract_lighting text).primary_light = "natural" ↔
      containsLower text "sunlight" = true) ∧
    ((extract_lighting text).primary_light = "artificial" ↔
      containsLower text "sunlight" = false) ∧
    ((extract_lighting text).mood = "bright" ↔
      (containsLower text "bright" || containsLower text "sunny" ||
        containsLower text "daylight") = true) ∧
    ((extract_lighting text).mood = "dark" ↔
      (containsLower text "bright" || containsLower text "sunny" ||
        containsLower text "daylight") = false) ∧
    ((extract_composition text).perspective = "wide" ↔
      (containsLower text "panorama" || containsLower text "wide" ||
        containsLower text "vast") = true) ∧
    ((extract_composition text).perspective = "close" ↔
      (containsLower text "panorama" || containsLower text "wide" ||
        containsLower text "vast") = false) ∧
    ((extract_composition text).focus = "foreground" ↔
      containsLower text "foreground" = true) ∧
    ((extract_composition text).focus = "background" ↔
      containsLower text "foreground" = false) := by
  have key : ∀ (c : Bool) (a b : String), a ≠ b →
      (((if c then a else b) = a ↔ c = true) ∧
        ((if c then a else b) = b ↔ c = false)) := by
    intro c a b hne
    cases c <;> simp [hne, Ne.symm hne]
  have h1 := key (containsLower text "sunlight") "natural" "artificial" (by decide)
  have h2 := key (containsLower text "bright" || containsLower text "sunny" ||
    containsLower text "daylight") "bright" "dark" (by decide)
  have h3 := key (containsLower text "panorama" || containsLower text "wide" ||
    containsLower text "vast") "wide" "close" (by decide)
  have h4 := key (containsLower text "foreground") "foreground" "background" (by decide)
  simp only [extract_lighting, extract_composition]
  exact ⟨h1.1, h1.2, h2.1, h2.2, h3.1, h3.2, h4.1, h4.2⟩

/- ### Artifact store: `Pipeline._save_temp_image` / `_save_temp_model` -/

/-- A service payload: Python `str` (taken to be base64 text, decoded) or
raw `bytes` (written unchanged). Bytes are modelled as lists of `Nat`. -/
inductive Payload where
  | text (s : String)
  | binary (b : List Nat)

/-- One temp file written by the artifact store. The `id` is the
allocation ordinal from which the unique OS-level name derives. -/
structure TempFile where
  id : Nat
  name : String
  content : List Nat

/-- The tempfile area: previously written files plus the allocation
counter modelling the OS guarantee that `NamedTemporaryFile` picks a name
distinct from every existing one. -/
structure FileSys where
  files : List TempFile
  counter : Nat

/-- The unique name the allocator gives the `k`-th temp file with the
requested extension. -/
def tmpName (k : Nat) (suffix : String) : String :=
  "/tmp/tmp" ++ Nat.repr k ++ suffix

/-- Allocate a fresh uniquely named temp file and write `content` to it,
returning its locator (`tempfile.NamedTemporaryFile(suffix=..., delete=False)`
followed by `tmp.write`). -/
def allocTemp (fs : FileSys) (suffix : String) (content : List Nat) : String × FileSys :=
  (tmpName fs.counter suffix,
   { files := ⟨fs.counter, tmpName fs.counter suffix, content⟩ :: fs.files
     counter := fs.counter + 1 })

/-- Oracle for the external collaborators of one pipeline run:
`base64.b64decode` (fails with `binascii.Error` on invalid input, modelled
as `Option.none`), whether each of the two OS temp-file writes succeeds, and
whether the sqlitedict persistent write succeeds. -/
structure PyEnv where
  b64decode : String → Option (List Nat)
  imgWriteOk : Bool
  modelWriteOk : Bool
  persistOk : Bool

/-- Message of the `binascii.Error` raised by a failed base64 decode. -/
def b64ErrMsg : String := "Invalid base64-encoded string"

/-- Message of the `OSError` raised by a failed temp-file write. -/
def osWriteErrMsg : String := "OSError: could not write temporary file"

/-- `Pipeline._save_temp_image`: allocate a fresh `.png` temp file,
base64-decode text payloads (raw bytes pass through), write, and return
the path; any failure is re-raised after logging. -/
def save_temp_image (env : PyEnv) (fs : FileSys) (image_data : Payload) :
    Except String (String × FileSys) :=
  match image_data with
  | .text s =>
    match env.b64decode s with
    | some bs =>
      if env.imgWriteOk then .ok (allocTemp fs ".png" bs)
      else .error osWriteErrMsg
    | Option.none => .error b64ErrMsg
  | .binary b =>
    if env.imgWriteOk then .ok (allocTemp fs ".png" b)
    else .error osWriteErrMsg

/-- `Pipeline._save_temp_model`: as `_save_temp_image`, with a `.glb`
extension. -/
def save_temp_model (env : PyEnv) (fs : FileSys) (model_data : Payload) :
    Except String (String × FileSys) :=
  match model_data with
  | .text s =>
    match env.b64decode s with
    | some bs =>
      if env.modelWriteOk then .ok (allocTemp fs ".glb" bs)
      else .error osWriteErrMsg
    | Option.none => .error b64ErrMsg
  | .binary b =>
    if env.modelWriteOk then .ok (allocTemp fs ".glb" b)
    else .error osWriteErrMsg

theorem tmpName_has_suffix (k : Nat) (s : String) :
    s.toList <:+ (tmpName k s).toList := by
  show s.data <:+ (("/tmp/tmp" ++ Nat.repr k) ++ s).data
  rw [String.data_append]
  exact List.suffix_append _ _

/-- Claim C5: the artifact-store operations base64-decode text payloads
and write raw binary payloads unchanged, to a freshly allocated uniquely
named location (an allocation ordinal no existing file has) whose name
ends in `.png` for an image and `.glb` for a model, returning that
locator; and they raise (return `Except.error`) whenever decoding or the
write fails. The hypothesis is the allocator well-formedness invariant:
every existing file has an ordinal below the counter. -/
theorem save_temp_spec (env : PyEnv) (fs : FileSys)
    (hwf : ∀ f ∈ fs.files, f.id < fs.counter) :
    ((∀ s bs, env.b64decode s = some bs → env.imgWriteOk = true →
      save_temp_image env fs (.text s) =
        .ok (tmpName fs.counter ".png",
          ⟨⟨fs.counter, tmpName fs.counter ".png", bs⟩ :: fs.files, fs.counter + 1⟩)) ∧
     (∀ b, env.imgWriteOk = true →
      save_temp_image env fs (.binary b) =
        .ok (tmpName fs.counter ".png",
          ⟨⟨fs.counter, tmpName fs.counter ".png", b⟩ :: fs.files, fs.counter + 1⟩)) ∧
     (∀ s, env.b64decode s = Option.none →
      save_temp_image env fs (.text s) = .error b64ErrMsg) ∧
     (∀ p, env.imgWriteOk = false → (∀ s, p = Payload.text s → env.b64decode s ≠ Option.none) →
      save_temp_image env fs p = .error osWriteErrMsg)) ∧
    ((∀ s bs, env.b64decode s = some bs → env.modelWriteOk = true →
      save_temp_model env fs (.text s) =
        .ok (tmpName fs.counter ".glb",
          ⟨⟨fs.counter, tmpName fs.counter ".glb", bs⟩ :: fs.files, fs.counter + 1⟩)) ∧
     (∀ b, env.modelWriteOk = true →
      save_temp_model env fs (.binary b) =
        .ok (tmpName fs.counter ".glb",
          ⟨⟨fs.counter, tmpName fs.counter ".glb", b⟩ :: fs.files, fs.counter + 1⟩)) ∧
     (∀ s, env.b64decode s = Option.none →
      save_temp_model env fs (.text s) = .error b64ErrMsg) ∧
     (∀ p, env.modelWriteOk = false → (∀ s, p = Payload.text s → env.b64decode s ≠ Option.none) →
      save_temp_model env fs p = .error osWriteErrMsg)) ∧
    (∀ f ∈ fs.files, f.id ≠ fs.counter) ∧
    ".png".toList <:+ (tmpName fs.counter ".png").toList ∧
    ".glb".toList <:+ (tmpName fs.counter ".glb").toList := by
  refine ⟨⟨?_, ?_, ?_, ?_⟩, ⟨?_, ?_, ?_, ?_⟩, ?_, ?_, ?_⟩
  · intro s bs hdec hok
    simp [save_temp_image, hdec, hok, allocTemp]
  · intro b hok
    simp [save_temp_image, hok, allocTemp]
  · intro s hdec
    simp [save_temp_image, hdec]
  · intro p hok hdec
    cases p with
    | text s =>
      cases hd : env.b64decode s with
      | none => exact absurd hd (hdec s rfl)
      | some bs => simp [save_temp_image, hd, hok]
    | binary b => simp [save_temp_image, hok]
  · intro s bs hdec hok
    simp [save_temp_model, hdec, hok, allocTemp]
  · intro b hok
    simp [save_temp_model, hok, allocTemp]
  · intro s hdec
    simp [save_temp_model, hdec]
  · intro p hok hdec
    cases p with
    | text s =>
      cases hd : env.b64decode s with
      | none => exact absurd hd (hdec s rfl)
      | some bs => simp [save_temp_model, hd, hok]
    | binary b => simp [save_temp_model, hok]
  · intro f hf
    exact Nat.ne_of_lt (hwf f hf)
  · exact tmpName_has_suffix _ _
  · exact tmpName_has_suffix _ _

/-- Witness for C5 at a concrete decoder, payloads and file system. -/
theorem save_temp_spec_witness :
    save_temp_image ⟨fun _ => some [7, 8], true, true, true⟩ ⟨[], 0⟩ (.text "QUJD") =
      .ok (tmpName 0 ".png", ⟨[⟨0, tmpName 0 ".png", [7, 8]⟩], 1⟩) ∧
    save_temp_model ⟨fun _ => Option.none, true, true, true⟩ ⟨[], 0⟩ (.text "???") =
      .error b64ErrMsg := by
  have h1 := save_temp_spec ⟨fun _ => some [7, 8], true, true, true⟩ ⟨[], 0⟩
    (by intro f hf; simp at hf)
  have h2 := save_temp_spec ⟨fun _ => Option.none, true, true, true⟩ ⟨[], 0⟩
    (by intro f hf; simp at hf)
  exact ⟨h1.1.1 "QUJD" [7, 8] rfl rfl, h2.2.1.2.2.1 "???" rfl⟩

/- ### Pipeline orchestrator (`app/core/pipeline.py`, wiring in `app/main.py`) -/

/-- Response of the text-to-image service call. `image = Option.none`
models a response dict lacking the `image` key, so that subscripting it
raises `KeyError`. -/
structure T2IResponse where
  image : Option Payload

/-- Response of the image-to-3D service call; `metadata` is read with
`.get('metadata', \x7b\x7d)`. -/
structure I23DResponse where
  model : Option Payload
  metadata : Option PyVal

/-- The Openfabric stub: the outcomes of the two external service calls
of one run (an opaque external collaborator). -/
structure Stub where
  t2i : Except String T2IResponse
  i23d : Except String I23DResponse

/-- The pipeline handler as wired in `main.config`: `llm = Option.none`
models the branch where `LLMHandler(model_path)` raised
`FileNotFoundError`, the exception was caught and logged, and the
pipeline was built with `llm_handler = None`. -/
structure Pipeline where
  llm : Option LLMModel

/-- Message of the `AttributeError` raised by `self.llm.expand_prompt`
when `self.llm` is `None`. -/
def noneTypeMsg : String := "AttributeError: NoneType object has no attribute expand_prompt"

/-- Message of the `KeyError` raised by `img_result['image']` on a
response without that key. -/
def keyErrImageMsg : String := "KeyError: image"

/-- Message of the `KeyError` raised by `model_result['model']`. -/
def keyErrModelMsg : String := "KeyError: model"

/-- Message of the exception raised by a failed sqlitedict write inside
`save_persistent`. -/
def persistErrMsg : String := "sqlite3 error: persistent write failed"

/-- Mutable state shared by the handlers during one run: the memory
tiers and the temp-file area. -/
structure PState where
  memory : MemoryHandler
  fs : FileSys

/-- Encoding of the `lighting` hints dict as a Python value. -/
def Lighting.toPyVal (l : Lighting) : PyVal :=
  PyVal.dict [("primary_light", PyVal.str l.primary_light), ("mood", PyVal.str l.mood)]

/-- Encoding of the `composition` hints dict as a Python value. -/
def Composition.toPyVal (c : Composition) : PyVal :=
  PyVal.dict [("perspective", PyVal.str c.perspective), ("focus", PyVal.str c.focus)]

/-- Encoding of `style_hints` as a Python value (`Option.none` is the
empty dict of the fail-open branch). -/
def styleHintsPy : Option StyleHints → PyVal
  | Option.none => PyVal.dict []
  | some sh => PyVal.dict [("lighting", sh.lighting.toPyVal),
      ("composition", sh.composition.toPyVal)]

/-- Encoding of the `expand_prompt` result dict as a Python value. -/
def PromptExpansion.toPyVal (e : PromptExpansion) : PyVal :=
  PyVal.dict [("expanded_prompt", PyVal.str e.expanded_prompt),
    ("style_hints", styleHintsPy e.style_hints),
    ("technical_params", PyVal.str e.technical_params)]

/-- The session record written under `prompt_<session_id>`. -/
def promptRecord (prompt : String) (expanded : PromptExpansion) : PyVal :=
  PyVal.dict [("original", PyVal.str prompt), ("expanded", expanded.toPyVal)]

/-- The session record written under `image_<session_id>`. -/
def imageRecord (img_path : String) (expanded : PromptExpansion) : PyVal :=
  PyVal.dict [("path", PyVal.str img_path), ("metadata", styleHintsPy expanded.style_hints)]

/-- The session record written under `model_<session_id>`. -/
def modelRecord (model_path : String) (metadata : PyVal) : PyVal :=
  PyVal.dict [("path", PyVal.str model_path), ("metadata", metadata)]

/-- The consolidated record written under `creation_<session_id>`. -/
def creationRecord (prompt : String) (expanded : PromptExpansion)
    (img_path model_path : String) (metadata : PyVal) : PyVal :=
  PyVal.dict [("prompt", promptRecord prompt expanded),
    ("image", imageRecord img_path expanded),
    ("model", modelRecord model_path metadata)]

/-- Stage 1 (Expand): `self.llm.expand_prompt(prompt)` — an
`AttributeError` if the handler is `None` — then the `prompt_<id>`
session write. -/
def stageExpand (pl : Pipeline) (prompt sid : String) (st : PState) :
    Except (String × PState) (PromptExpansion × PState) :=
  match pl.llm with
  | Option.none => .error (noneTypeMsg, st)
  | some llm =>
    let expanded := expand_prompt llm prompt
    .ok (expanded,
      { st with memory :=
          save_session ("prompt_" ++ sid) (promptRecord prompt expanded) st.memory })

/-- Stage 2 (GenerateImage): call the text-to-image service, store the
artifact, then the `image_<id>` session write. -/
def stageImage (env : PyEnv) (stub : Stub) (sid : String)
    (expanded : PromptExpansion) (st : PState) :
    Except (String × PState) (String × PState) :=
  match stub.t2i with
  | .error e => .error (e, st)
  | .ok resp =>
    match resp.image with
    | Option.none => .error (keyErrImageMsg, st)
    | some payload =>
      match save_temp_image env st.fs payload with
      | .error e => .error (e, st)
      | .ok (img_path, fs') =>
        .ok (img_path,
          { memory := save_session ("image_" ++ sid) (imageRecord img_path expanded) st.memory
            fs := fs' })

/-- Stage 3 (GenerateModel): call the image-to-3D service with the image
locator and technical params, store the artifact, then the `model_<id>`
session write; the request fields do not influence the oracle outcome. -/
def stageModel (env : PyEnv) (stub : Stub) (sid : String)
    (_img_path _technical_params : String) (st : PState) :
    Except (String × PState) ((String × PyVal) × PState) :=
  match stub.i23d with
  | .error e => .error (e, st)
  | .ok resp =>
    match resp.model with
    | Option.none => .error (keyErrModelMsg, st)
    | some payload =>
      match save_temp_model env st.fs payload with
      | .error e => .error (e, st)
      | .ok (model_path, fs') =>
        let md := resp.metadata.getD (PyVal.dict [])
        .ok ((model_path, md),
          { memory := save_session ("model_" ++ sid) (modelRecord model_path md) st.memory
            fs := fs' })

/-- Stage 4 (Persist): the consolidated `creation_<id>` write; a failed
sqlitedict write raises before mutating the durable tier. -/
def stagePersist (env : PyEnv) (prompt sid : String) (expanded : PromptExpansion)
    (img_path model_path : String) (md : PyVal) (st : PState) :
    Except (String × PState) PState :=
  if env.persistOk then
    .ok { st with
          memory := save_persistent ("creation_" ++ sid)
            (creationRecord prompt expanded img_path model_path md) st.memory }
  else .error (persistErrMsg, st)

/-- The dict returned by `Pipeline.process`: the success or error shape. -/
inductive PResult where
  | success (prompt : PromptExpansion) (image_path model_path session_id : String)
  | error (error session_id : String)

/-- The body of the `try` block of `Pipeline.process`: the four stages in
sequence, short-circuiting at the first raise and carrying the state at
the raise point. -/
def processBody (pl : Pipeline) (env : PyEnv) (stub : Stub)
    (prompt sid : String) (st : PState) :
    Except (String × PState) (PResult × PState) :=
  match stageExpand pl prompt sid st with
  | .error e => .error e
  | .ok (expanded, st1) =>
    match stageImage env stub sid expanded st1 with
    | .error e => .error e
    | .ok (img_path, st2) =>
      match stageModel env stub sid img_path expanded.technical_params st2 with
      | .error e => .error e
      | .ok ((model_path, md), st3) =>
        match stagePersist env prompt sid expanded img_path model_path md st3 with
        | .error e => .error e
        | .ok st4 => .ok (PResult.success expanded img_path model_path sid, st4)

/-- `Pipeline.process`: run the body; the blanket `except` turns any raise
into `\x7b status: error, error: str(e), session_id \x7d`, keeping every
mutation already performed. -/
def process (pl : Pipeline) (env : PyEnv) (stub : Stub)
    (prompt sid : String) (st : PState) : PResult × PState :=
  match processBody pl env stub prompt sid st with
  | .ok r => r
  | .error (e, st') => (PResult.error e sid, st')

/- ### Helper lemmas for the pipeline proofs -/

theorem append_ne_of_length_ne (p q sid : String) (h : p.length ≠ q.length) :
    p ++ sid ≠ q ++ sid := by
  intro he
  have hl := congrArg String.length he
  rw [String.length_append, String.length_append] at hl
  omega

theorem append_ne_of_ne (p q sid : String) (hlen : p.length = q.length)
    (hne : p ≠ q) : p ++ sid ≠ q ++ sid := by
  intro he
  have hd : p.data ++ sid.data = q.data ++ sid.data := by
    have := congrArg String.data he
    simpa using this
  have hlen' : p.data.length = q.data.length := by
    rw [String.length_data, String.length_data]
    exact hlen
  exact hne (String.ext (List.append_inj hd hlen').1)

theorem promptKey_ne_imageKey (sid : String) :
    ("prompt_" ++ sid) ≠ ("image_" ++ sid) :=
  append_ne_of_length_ne _ _ _ (by decide)

theorem promptKey_ne_modelKey (sid : String) :
    ("prompt_" ++ sid) ≠ ("model_" ++ sid) :=
  append_ne_of_length_ne _ _ _ (by decide)

theorem imageKey_ne_modelKey (sid : String) :
    ("image_" ++ sid) ≠ ("model_" ++ sid) :=
  append_ne_of_ne _ _ _ (by decide) (by decide)

@[simp] theorem save_session_db (k : String) (v : PyVal) (m : MemoryHandler) :
    (save_session k v m).db = m.db := rfl

@[simp] theorem save_session_clock (k : String) (v : PyVal) (m : MemoryHandler) :
    (save_session k v m).clock = m.clock + 1 := rfl

@[simp] theorem save_session_mem (k : String) (v : PyVal) (m : MemoryHandler) :
    (save_session k v m).session_memory = upsert k ⟨v, m.clock⟩ m.session_memory := rfl

@[simp] theorem save_persistent_session (k : String) (v : PyVal) (m : MemoryHandler) :
    (save_persistent k v m).session_memory = m.session_memory := rfl

@[simp] theorem save_persistent_db (k : String) (v : PyVal) (m : MemoryHandler) :
    (save_persistent k v m).db = upsert k ⟨v, m.clock⟩ m.db := rfl

/-- Characterization of a successful run of the `try` body: the LLM
handler was present, the result is the success record, and the final
state carries the three session records written in order at consecutive
logical times plus the consolidated persistent record. -/
theorem processBody_ok_char (pl : Pipeline) (env : PyEnv) (stub : Stub)
    (p sid : String) (st : PState) (res : PResult) (st' : PState)
    (h : processBody pl env stub p sid st = .ok (res, st')) :
    ∃ llm ip mp md, pl.llm = some llm ∧
      res = PResult.success (expand_prompt llm p) ip mp sid ∧
      st'.memory.session_memory =
        upsert ("model_" ++ sid) ⟨modelRecord mp md, st.memory.clock + 2⟩
          (upsert ("image_" ++ sid)
            ⟨imageRecord ip (expand_prompt llm p), st.memory.clock + 1⟩
            (upsert ("prompt_" ++ sid)
              ⟨promptRecord p (expand_prompt llm p), st.memory.clock⟩
              st.memory.session_memory)) ∧
      st'.memory.db =
        upsert ("creation_" ++ sid)
          ⟨creationRecord p (expand_prompt llm p) ip mp md, st.memory.clock + 3⟩
          st.memory.db := by
  cases hl : pl.llm with
  | none => simp [processBody, stageExpand, hl] at h
  | some llm =>
    cases ht : stub.t2i with
    | error e => simp [processBody, stageExpand, hl, stageImage, ht] at h
    | ok resp =>
      cases hi : resp.image with
      | none => simp [processBody, stageExpand, hl, stageImage, ht, hi] at h
      | some payload =>
        cases hw : save_temp_image env st.fs payload with
        | error e => simp [processBody, stageExpand, hl, stageImage, ht, hi, hw] at h
        | ok pr =>
          obtain ⟨ip, fs1⟩ := pr
          cases ht2 : stub.i23d with
          | error e =>
            simp [processBody, stageExpand, hl, stageImage, ht, hi, hw,
              stageModel, ht2] at h
          | ok resp2 =>
            cases hm : resp2.model with
            | none =>
              simp [processBody, stageExpand, hl, stageImage, ht, hi, hw,
                stageModel, ht2, hm] at h
            | some payload2 =>
              cases hw2 : save_temp_model env fs1 payload2 with
              | error e =>
                simp [processBody, stageExpand, hl, stageImage, ht, hi, hw,
                  stageModel, ht2, hm, hw2] at h
              | ok pr2 =>
                obtain ⟨mp, fs2⟩ := pr2
                cases hp : env.persistOk with
                | false =>
                  simp [processBody, stageExpand, hl, stageImage, ht, hi, hw,
                    stageModel, ht2, hm, hw2, stagePersist, hp] at h
                | true =>
                  simp [processBody, stageExpand, hl, stageImage, ht, hi, hw,
                    stageModel, ht2, hm, hw2, stagePersist, hp] at h
                  obtain ⟨hres, hst⟩ := h
                  subst hst
                  exact ⟨llm, ip, mp, resp2.metadata.getD (PyVal.dict []), rfl,
                    hres.symm, by simp, by simp⟩

/-- Characterization of a failing run of the `try` body: the durable tier
is untouched, and the session tier holds exactly the records of the
stages completed before the raise — none, `prompt_` only, `prompt_` and
`image_`, or all three — written at consecutive logical times. -/
theorem processBody_error_char (pl : Pipeline) (env : PyEnv) (stub : Stub)
    (p sid : String) (st : PState) (e : String) (st' : PState)
    (h : processBody pl env stub p sid st = .error (e, st')) :
    st'.memory.db = st.memory.db ∧
    (st'.memory.session_memory = st.memory.session_memory ∨
     (∃ llm, pl.llm = some llm ∧
        st'.memory.session_memory =
          upsert ("prompt_" ++ sid)
            ⟨promptRecord p (expand_prompt llm p), st.memory.clock⟩
            st.memory.session_memory) ∨
     (∃ llm ip, pl.llm = some llm ∧
        st'.memory.session_memory =
          upsert ("image_" ++ sid)
            ⟨imageRecord ip (expand_prompt llm p), st.memory.clock + 1⟩
            (upsert ("prompt_" ++ sid)
              ⟨promptRecord p (expand_prompt llm p), st.memory.clock⟩
              st.memory.session_memory)) ∨
     (∃ llm ip mp md, pl.llm = some llm ∧
        st'.memory.session_memory =
          upsert ("model_" ++ sid) ⟨modelRecord mp md, st.memory.clock + 2⟩
            (upsert ("image_" ++ sid)
              ⟨imageRecord ip (expand_prompt llm p), st.memory.clock + 1⟩
              (upsert ("prompt_" ++ sid)
                ⟨promptRecord p (expand_prompt llm p), st.memory.clock⟩
                st.memory.session_memory)))) := by
  cases hl : pl.llm with
  | none =>
    simp [processBody, stageExpand, hl] at h
    obtain ⟨-, hst⟩ := h
    subst hst
    exact ⟨rfl, Or.inl rfl⟩
  | some llm =>
    cases ht : stub.t2i with
    | error e2 =>
      simp [processBody, stageExpand, hl, stageImage, ht] at h
      obtain ⟨-, hst⟩ := h
      subst hst
      exact ⟨by simp, Or.inr (Or.inl ⟨llm, rfl, by simp⟩)⟩
    | ok resp =>
      cases hi : resp.image with
      | none =>
        simp [processBody, stageExpand, hl, stageImage, ht, hi] at h
        obtain ⟨-, hst⟩ := h
        subst hst
        exact ⟨by simp, Or.inr (Or.inl ⟨llm, rfl, by simp⟩)⟩
      | some payload =>
        cases hw : save_temp_image env st.fs payload with
        | error e2 =>
          simp [processBody, stageExpand, hl, stageImage, ht, hi, hw] at h
          obtain ⟨-, hst⟩ := h
          subst hst
          exact ⟨by simp, Or.inr (Or.inl ⟨llm, rfl, by simp⟩)⟩
        | ok pr =>
          obtain ⟨ip, fs1⟩ := pr
          cases ht2 : stub.i23d with
          | error e2 =>
            simp [processBody, stageExpand, hl, stageImage, ht, hi, hw,
              stageModel, ht2] at h
            obtain ⟨-, hst⟩ := h
            subst hst
            exact ⟨by simp, Or.inr (Or.inr (Or.inl ⟨llm, ip, rfl, by simp⟩))⟩
          | ok resp2 =>
            cases hm : resp2.model with
            | none =>
              simp [processBody, stageExpand, hl, stageImage, ht, hi, hw,
                stageModel, ht2, hm] at h
              obtain ⟨-, hst⟩ := h
              subst hst
              exact ⟨by simp, Or.inr (Or.inr (Or.inl ⟨llm, ip, rfl, by simp⟩))⟩
            | some payload2 =>
              cases hw2 : save_temp_model env fs1 payload2 with
              | error e2 =>
                simp [processBody, stageExpand, hl, stageImage, ht, hi, hw,
                  stageModel, ht2, hm, hw2] at h
                obtain ⟨-, hst⟩ := h
                subst hst
                exact ⟨by simp, Or.inr (Or.inr (Or.inl ⟨llm, ip, rfl, by simp⟩))⟩
              | ok pr2 =>
                obtain ⟨mp, fs2⟩ := pr2
                cases hp : env.persistOk with
                | false =>
                  simp [processBody, stageExpand, hl, stageImage, ht, hi, hw,
                    stageModel, ht2, hm, hw2, stagePersist, hp] at h
                  obtain ⟨-, hst⟩ := h
                  subst hst
                  exact ⟨by simp, Or.inr (Or.inr (Or.inr
                    ⟨llm, ip, mp, resp2.metadata.getD (PyVal.dict []), rfl, by simp⟩))⟩
                | true =>
                  simp [processBody, stageExpand, hl, stageImage, ht, hi, hw,
                    stageModel, ht2, hm, hw2, stagePersist, hp] at h

theorem lookups_triple (sid : String) (l : List (String × SessionEntry))
    (v1 v2 v3 : SessionEntry) :
    lookupA ("prompt_" ++ sid)
      (upsert ("model_" ++ sid) v3 (upsert ("image_" ++ sid) v2
        (upsert ("prompt_" ++ sid) v1 l))) = some v1 ∧
    lookupA ("image_" ++ sid)
      (upsert ("model_" ++ sid) v3 (upsert ("image_" ++ sid) v2
        (upsert ("prompt_" ++ sid) v1 l))) = some v2 ∧
    lookupA ("model_" ++ sid)
      (upsert ("model_" ++ sid) v3 (upsert ("image_" ++ sid) v2
        (upsert ("prompt_" ++ sid) v1 l))) = some v3 := by
  refine ⟨?_, ?_, ?_⟩
  · rw [lookupA_upsert_ne _ _ _ _ (promptKey_ne_modelKey sid),
      lookupA_upsert_ne _ _ _ _ (promptKey_ne_imageKey sid),
      lookupA_upsert_self]
  · rw [lookupA_upsert_ne _ _ _ _ (imageKey_ne_modelKey sid),
      lookupA_upsert_self]
  · rw [lookupA_upsert_self]

/- ### Concrete fixtures used by the closed witness theorems -/

def llmC : LLMModel := ⟨.ok "bright sunlight view", .ok "low poly mesh"⟩

def plC : Pipeline := ⟨some llmC⟩

def plNoneC : Pipeline := ⟨Option.none⟩

def envC : PyEnv := ⟨fun _ => some [9], true, true, true⟩

def stubOkC : Stub := ⟨.ok ⟨some (.binary [1, 2])⟩, .ok ⟨some (.binary [3]), Option.none⟩⟩

def stubImgErrC : Stub := ⟨.error "service unavailable", .ok ⟨some (.binary [3]), Option.none⟩⟩

def pst0 : PState := ⟨⟨[], [], 0⟩, ⟨[], 0⟩⟩

/-- Claim C1: the persistent record `creation_<session_id>` is written
only after all earlier stages succeeded. Provided the LLM handler is
present (so the Expand stage cannot raise and every raise comes from
`GenerateImage` or later) and no `creation_<session_id>` entry pre-exists
the run: whenever `process` returns an error result, no
`creation_<session_id>` entry exists in the durable tier afterwards; and
any `creation_<session_id>` entry existing after the run is the complete
record with all of the `prompt`, `image` and `model` fields — no
partially-populated persistent record is ever stored. -/
theorem creation_record_atomic (pl : Pipeline) (env : PyEnv) (stub : Stub)
    (p sid : String) (st : PState)
    (hllm : pl.llm ≠ Option.none)
    (h0 : lookupA ("creation_" ++ sid) st.memory.db = Option.none) :
    (∀ e s2, (process pl env stub p sid st).1 = PResult.error e s2 →
      lookupA ("creation_" ++ sid) (process pl env stub p sid st).2.memory.db =
        Option.none) ∧
    (∀ en, lookupA ("creation_" ++ sid)
        (process pl env stub p sid st).2.memory.db = some en →
      ∃ pr im mo,
        en.data = PyVal.dict [("prompt", pr), ("image", im), ("model", mo)]) := by
  cases hb : processBody pl env stub p sid st with
  | error pr =>
    obtain ⟨e, stE⟩ := pr
    obtain ⟨hdb, -⟩ := processBody_error_char pl env stub p sid st e stE hb
    constructor
    · intro _ _ _
      simp only [process, hb]
      rw [hdb]
      exact h0
    · intro en hen
      simp only [process, hb] at hen
      rw [hdb, h0] at hen
      exact Option.noConfusion hen
  | ok pr =>
    obtain ⟨res, stO⟩ := pr
    obtain ⟨llm, ip, mp, md, hl, hres, hsess, hdb⟩ :=
      processBody_ok_char pl env stub p sid st res stO hb
    constructor
    · intro e s2 hE
      simp only [process, hb] at hE
      rw [hres] at hE
      exact PResult.noConfusion hE
    · intro en hen
      simp only [process, hb] at hen
      rw [hdb, lookupA_upsert_self] at hen
      obtain rfl : (⟨creationRecord p (expand_prompt llm p) ip mp md,
          st.memory.clock + 3⟩ : SessionEntry) = en := by
        injection hen
      exact ⟨_, _, _, rfl⟩

/-- Witness for C1: a run whose image-generation service raises leaves no
`creation_` entry in the durable tier. -/
theorem creation_record_atomic_witness :
    lookupA ("creation_" ++ "s1")
      (process plC envC stubImgErrC "p" "s1" pst0).2.memory.db = Option.none := by
  have h := creation_record_atomic plC envC stubImgErrC "p" "s1" pst0
    (by simp [plC]) rfl
  exact h.1 "service unavailable" "s1" rfl

/-- Claim C3: when the body of a run raises, `process` returns exactly
the error record carrying the triggering exception message and the given
session id, keeping every session write already performed; in particular,
when the image-generation service raises with message `e`, the result is
`error e sid`, the `prompt_<session_id>` session record written by the
completed Expand stage is still present unchanged, and no
`creation_<session_id>` persistent record exists. -/
theorem error_result_shape (pl : Pipeline) (env : PyEnv) (stub : Stub)
    (p sid : String) (st : PState) (llm : LLMModel)
    (hllm : pl.llm = some llm)
    (h0 : lookupA ("creation_" ++ sid) st.memory.db = Option.none) :
    (∀ e stE, processBody pl env stub p sid st = .error (e, stE) →
      process pl env stub p sid st = (PResult.error e sid, stE)) ∧
    (∀ e, stub.t2i = .error e →
      (process pl env stub p sid st).1 = PResult.error e sid ∧
      lookupA ("prompt_" ++ sid)
        (process pl env stub p sid st).2.memory.session_memory =
        some ⟨promptRecord p (expand_prompt llm p), st.memory.clock⟩ ∧
      lookupA ("creation_" ++ sid)
        (process pl env stub p sid st).2.memory.db = Option.none) := by
  constructor
  · intro e stE hb
    simp [process, hb]
  · intro e ht
    have hb : processBody pl env stub p sid st =
        .error (e, ⟨save_session ("prompt_" ++ sid)
          (promptRecord p (expand_prompt llm p)) st.memory, st.fs⟩) := by
      simp [processBody, stageExpand, hllm, stageImage, ht]
    refine ⟨?_, ?_, ?_⟩ <;>
      simp [process, hb, lookupA_upsert_self, h0]

/-- Witness for C3 at a concrete failing service call. -/
theorem error_result_shape_witness :
    (process plC envC stubImgErrC "p" "s3" pst0).1 =
      PResult.error "service unavailable" "s3" := by
  have h := error_result_shape plC envC stubImgErrC "p" "s3" pst0 llmC rfl rfl
  exact (h.2 "service unavailable" rfl).1

/-- Claim C4: session records are written in the fixed order
`prompt_<id>`, `image_<id>`, `model_<id>`, each stage's write completing
before the next stage acts. Starting from a state with none of the three
keys: whenever the final state holds an `image_` record, it also holds a
`prompt_` record with a strictly earlier timestamp; whenever it holds a
`model_` record, it also holds an `image_` record with a strictly earlier
timestamp; and for every fully successful run all three session records
exist, ordered by strictly increasing timestamps, and the
`creation_<id>` persistent record exists. -/
theorem session_writes_ordered (pl : Pipeline) (env : PyEnv) (stub : Stub)
    (p sid : String) (st : PState)
    (h0p : lookupA ("prompt_" ++ sid) st.memory.session_memory = Option.none)
    (h0i : lookupA ("image_" ++ sid) st.memory.session_memory = Option.none)
    (h0m : lookupA ("model_" ++ sid) st.memory.session_memory = Option.none) :
    (∀ e1, lookupA ("image_" ++ sid)
        (process pl env stub p sid st).2.memory.session_memory = some e1 →
      ∃ e0, lookupA ("prompt_" ++ sid)
          (process pl env stub p sid st).2.memory.session_memory = some e0 ∧
        e0.timestamp < e1.timestamp) ∧
    (∀ e2, lookupA ("model_" ++ sid)
        (process pl env stub p sid st).2.memory.session_memory = some e2 →
      ∃ e1, lookupA ("image_" ++ sid)
          (process pl env stub p sid st).2.memory.session_memory = some e1 ∧
        e1.timestamp < e2.timestamp) ∧
    (∀ ex ip mp, (process pl env stub p sid st).1 = PResult.success ex ip mp sid →
      ∃ e0 e1 e2 ec,
        lookupA ("prompt_" ++ sid)
          (process pl env stub p sid st).2.memory.session_memory = some e0 ∧
        lookupA ("image_" ++ sid)
          (process pl env stub p sid st).2.memory.session_memory = some e1 ∧
        lookupA ("model_" ++ sid)
          (process pl env stub p sid st).2.memory.session_memory = some e2 ∧
        e0.timestamp < e1.timestamp ∧ e1.timestamp < e2.timestamp ∧
        lookupA ("creation_" ++ sid)
          (process pl env stub p sid st).2.memory.db = some ec) := by
  cases hb : processBody pl env stub p sid st with
  | error pr =>
    obtain ⟨e, stE⟩ := pr
    obtain ⟨-, hcase⟩ := processBody_error_char pl env stub p sid st e stE hb
    have hfst : (process pl env stub p sid st).1 = PResult.error e sid := by
      simp [process, hb]
    have hsnd : (process pl env stub p sid st).2 = stE := by
      simp [process, hb]
    rw [hsnd]
    refine ⟨?_, ?_, ?_⟩
    · intro e1 he1
      rcases hcase with hc | ⟨llm, -, hc⟩ | ⟨llm, ip, -, hc⟩ | ⟨llm, ip, mp, md, -, hc⟩
      · rw [hc, h0i] at he1
        exact Option.noConfusion he1
      · rw [hc, lookupA_upsert_ne _ _ _ _ (promptKey_ne_imageKey sid).symm,
          h0i] at he1
        exact Option.noConfusion he1
      · rw [hc] at he1 ⊢
        rw [lookupA_upsert_self] at he1
        obtain rfl : (⟨imageRecord ip (expand_prompt llm p),
            st.memory.clock + 1⟩ : SessionEntry) = e1 := by
          injection he1
        refine ⟨⟨promptRecord p (expand_prompt llm p), st.memory.clock⟩, ?_,
          Nat.lt_succ_self _⟩
        rw [lookupA_upsert_ne _ _ _ _ (promptKey_ne_imageKey sid),
          lookupA_upsert_self]
      · rw [hc] at he1 ⊢
        obtain ⟨-, hI, -⟩ := lookups_triple sid st.memory.session_memory
          ⟨promptRecord p (expand_prompt llm p), st.memory.clock⟩
          ⟨imageRecord ip (expand_prompt llm p), st.memory.clock + 1⟩
          ⟨modelRecord mp md, st.memory.clock + 2⟩
        rw [hI] at he1
        obtain rfl : (⟨imageRecord ip (expand_prompt llm p),
            st.memory.clock + 1⟩ : SessionEntry) = e1 := by
          injection he1
        obtain ⟨hP, -, -⟩ := lookups_triple sid st.memory.session_memory
          ⟨promptRecord p (expand_prompt llm p), st.memory.clock⟩
          ⟨imageRecord ip (expand_prompt llm p), st.memory.clock + 1⟩
          ⟨modelRecord mp md, st.memory.clock + 2⟩
        exact ⟨_, hP, Nat.lt_succ_self _⟩
    · intro e2 he2
      rcases hcase with hc | ⟨llm, -, hc⟩ | ⟨llm, ip, -, hc⟩ | ⟨llm, ip, mp, md, -, hc⟩
      · rw [hc, h0m] at he2
        exact Option.noConfusion he2
      · rw [hc, lookupA_upsert_ne _ _ _ _ (promptKey_ne_modelKey sid).symm,
          h0m] at he2
        exact Option.noConfusion he2
      · rw [hc, lookupA_upsert_ne _ _ _ _ (imageKey_ne_modelKey sid).symm,
          lookupA_upsert_ne _ _ _ _ (promptKey_ne_modelKey sid).symm,
          h0m] at he2
        exact Option.noConfusion he2
      · rw [hc] at he2 ⊢
        obtain ⟨-, hI, hM⟩ := lookups_triple sid st.memory.session_memory
          ⟨promptRecord p (expand_prompt llm p), st.memory.clock⟩
          ⟨imageRecord ip (expand_prompt llm p), st.memory.clock + 1⟩
          ⟨modelRecord mp md, st.memory.clock + 2⟩
        rw [hM] at he2
        obtain rfl : (⟨modelRecord mp md,
            st.memory.clock + 2⟩ : SessionEntry) = e2 := by
          injection he2
        exact ⟨_, hI, Nat.lt_succ_self _⟩
    · intro ex ip mp hE
      rw [hfst] at hE
      exact PResult.noConfusion hE
  | ok pr =>
    obtain ⟨res, stO⟩ := pr
    obtain ⟨llm, ip, mp, md, hl, hres, hsess, hdb⟩ :=
      processBody_ok_char pl env stub p sid st res stO hb
    have hsnd : (process pl env stub p sid st).2 = stO := by
      simp [process, hb]
    rw [hsnd, hsess, hdb]
    obtain ⟨hP, hI, hM⟩ := lookups_triple sid st.memory.session_memory
      ⟨promptRecord p (expand_prompt llm p), st.memory.clock⟩
      ⟨imageRecord ip (expand_prompt llm p), st.memory.clock + 1⟩
      ⟨modelRecord mp md, st.memory.clock + 2⟩
    refine ⟨?_, ?_, ?_⟩
    · intro e1 he1
      rw [hI] at he1
      obtain rfl : (⟨imageRecord ip (expand_prompt llm p),
          st.memory.clock + 1⟩ : SessionEntry) = e1 := by
        injection he1
      exact ⟨_, hP, Nat.lt_succ_self _⟩
    · intro e2 he2
      rw [hM] at he2
      obtain rfl : (⟨modelRecord mp md,
          st.memory.clock + 2⟩ : SessionEntry) = e2 := by
        injection he2
      exact ⟨_, hI, Nat.lt_succ_self _⟩
    · intro _ _ _ _
      exact ⟨_, _, _, _, hP, hI, hM, Nat.lt_succ_self _, Nat.lt_succ_self _,
        lookupA_upsert_self _ _ _⟩

/-- Witness for C4 at a fully successful concrete run. -/
theorem session_writes_ordered_witness :
    ∃ e0 e1 e2 ec,
      lookupA ("prompt_" ++ "s4")
        (process plC envC stubOkC "p" "s4" pst0).2.memory.session_memory = some e0 ∧
      lookupA ("image_" ++ "s4")
        (process plC envC stubOkC "p" "s4" pst0).2.memory.session_memory = some e1 ∧
      lookupA ("model_" ++ "s4")
        (process plC envC stubOkC "p" "s4" pst0).2.memory.session_memory = some e2 ∧
      e0.timestamp < e1.timestamp ∧ e1.timestamp < e2.timestamp ∧
      lookupA ("creation_" ++ "s4")
        (process plC envC stubOkC "p" "s4" pst0).2.memory.db = some ec := by
  have h := session_writes_ordered plC envC stubOkC "p" "s4" pst0 rfl rfl rfl
  exact h.2.2 (expand_prompt llmC "p") (tmpName 0 ".png") (tmpName 1 ".glb") rfl

/-- Claim C6 (behaviour of the code at the claim's scenario): when the
local model could not be loaded — `main.config` caught the
`FileNotFoundError` and built the pipeline with `llm_handler = None` —
and both external services succeed, the run does NOT complete: the
`AttributeError` raised by `self.llm.expand_prompt` is swallowed by the
blanket except and `process` returns an error result, contradicting the
claimed fail-open completion. -/
theorem llm_unavailable_run_errors :
    process plNoneC envC stubOkC "a castle at sunset" "s6" pst0 =
      (PResult.error noneTypeMsg "s6", pst0) := rfl

end OpenfabricApp
